import Mathlib

/-!
Verification of the otomai strategy-execution core against its
natural-language specification.

The Python source is shallowly embedded: Python floats are modelled as
rationals (ℚ), `pandas` frames as lists of row structures, exchange /
notifier / database collaborators as explicit traces and state values,
and the `asyncio` polling loops as fuel-indexed step functions whose
poll index advances by one per sleep.  Fallible Python code is modelled
with `Except`; a raised exception is an `Except.error` value.
-/

namespace Otomai

/-! ## core/enums.py -/

/-- `OrderSide` from `core/enums.py`: BUY = "buy", SELL = "sell", NONE = "none". -/
inductive OrderSide where
  | buy
  | sell
  | none
deriving DecidableEq, Repr

/-- Python exception classes that the embedded code can raise. -/
inductive PyError where
  | zeroDivisionError
  | attributeError
  | keyError
  | indexError
deriving DecidableEq, Repr

/-! ## core/utils.py — RiskEngine price levels -/

/-- `calculate_take_profit_price` (`core/utils.py`, lines 13–23):
`adjustment = (take_profit_pct / 100) / leverage`; SELL ⇒ `price * (1 - adjustment)`,
BUY ⇒ `price * (1 + adjustment)`, otherwise `0.0`. -/
def calculate_take_profit_price (price : ℚ) (order_side : OrderSide)
    (take_profit_pct : ℚ) (leverage : ℚ) : ℚ :=
  let adjustment := take_profit_pct / 100 / leverage
  match order_side with
  | OrderSide.sell => price * (1 - adjustment)
  | OrderSide.buy => price * (1 + adjustment)
  | OrderSide.none => 0

/-- `calculate_stop_loss_price` (`core/utils.py`, lines 26–36):
`adjustment = (stop_loss_pct / 100) / leverage`; SELL ⇒ `price * (1 + adjustment)`,
BUY ⇒ `price * (1 - adjustment)`, otherwise `0.0`. -/
def calculate_stop_loss_price (price : ℚ) (order_side : OrderSide)
    (stop_loss_pct : ℚ) (leverage : ℚ) : ℚ :=
  let adjustment := stop_loss_pct / 100 / leverage
  match order_side with
  | OrderSide.sell => price * (1 + adjustment)
  | OrderSide.buy => price * (1 - adjustment)
  | OrderSide.none => 0

end Otomai

namespace Otomai

/-- C8 counterexample: at `pct = 0` (which the claim's interval `[0,100]` includes)
the BUY take-profit price equals the entry price instead of exceeding it, and the
BUY stop-loss price equals the entry price instead of lying below it. -/
theorem C8_counterexample :
    calculate_take_profit_price 100 OrderSide.buy 0 1 = 100 ∧
    ¬ (100 < calculate_take_profit_price 100 OrderSide.buy 0 1) ∧
    ¬ (calculate_stop_loss_price 100 OrderSide.buy 0 1 < 100) := by
  refine ⟨?_, ?_, ?_⟩ <;> norm_num [calculate_take_profit_price, calculate_stop_loss_price]

/-- C8 amended: for every price `p > 0`, every strictly positive percentage
`t ∈ (0,100]`, and every leverage `l ≥ 1`:
`takeProfitPrice(p,BUY,t,l) > p`, `stopLossPrice(p,BUY,t,l) < p`,
`takeProfitPrice(p,SELL,t,l) < p`, and `stopLossPrice(p,SELL,t,l) > p`. -/
theorem C8_price_levels_amended (p t l : ℚ) (hp : 0 < p) (ht : 0 < t)
    (ht' : t ≤ 100) (hl : 1 ≤ l) :
    p < calculate_take_profit_price p OrderSide.buy t l ∧
    calculate_stop_loss_price p OrderSide.buy t l < p ∧
    calculate_take_profit_price p OrderSide.sell t l < p ∧
    p < calculate_stop_loss_price p OrderSide.sell t l := by
  have hl0 : 0 < l := lt_of_lt_of_le one_pos hl
  have hadj : 0 < t / 100 / l := div_pos (div_pos ht (by norm_num)) hl0
  have hpa : 0 < p * (t / 100 / l) := mul_pos hp hadj
  refine ⟨?_, ?_, ?_, ?_⟩ <;>
    simp only [calculate_take_profit_price, calculate_stop_loss_price] <;>
    nlinarith [hpa]

/-- C8 witness: the amended inequalities at `p = 100`, `t = 10`, `l = 1`. -/
theorem C8_price_levels_amended_witness :
    ((0 : ℚ) < 100 ∧ (0 : ℚ) < 10 ∧ (10 : ℚ) ≤ 100 ∧ (1 : ℚ) ≤ 1) ∧
    ((100 : ℚ) < calculate_take_profit_price 100 OrderSide.buy 10 1 ∧
      calculate_stop_loss_price 100 OrderSide.buy 10 1 < 100 ∧
      calculate_take_profit_price 100 OrderSide.sell 10 1 < 100 ∧
      (100 : ℚ) < calculate_stop_loss_price 100 OrderSide.sell 10 1) :=
  ⟨⟨by norm_num, by norm_num, by norm_num, by norm_num⟩,
    C8_price_levels_amended 100 10 1 (by norm_num) (by norm_num) (by norm_num)
      (by norm_num)⟩

/-! ## strategies/listing_backrun.py — signal evaluation -/

/-- One enriched row of `_fetch_symbol_data`'s frame: the columns that
`_is_sell_signal` / `_is_buy_signal` read (`listing_backrun.py`, lines 44–53). -/
structure ListingRow where
  vol_open_low : ℚ
  vol_open_high : ℚ
  btc_vol : ℚ
  volume_usdt_btc_prop : ℚ
deriving DecidableEq, Repr

/-- The threshold fields of `ListingBackrunStrategyParams` (`core/parameters.py`,
lines 104–125). -/
structure ListingBackrunParams where
  short_price_volatility_threshold : ℚ
  long_price_volatility_threshold : ℚ
  short_btc_volatility_threshold : ℚ
  long_btc_volatility_threshold : ℚ
  volume_usdt_btc_prop_threshold : ℚ
deriving DecidableEq, Repr

/-- `ListingBackrunStrategy._is_sell_signal` (`listing_backrun.py`, lines 71–90):
`vol_open_low <= short_price_volatility_threshold` AND
`btc_vol >= short_btc_volatility_threshold` AND
`volume_usdt_btc_prop >= volume_usdt_btc_prop_threshold`. -/
def listing_is_sell_signal (row : ListingRow)
    (short_price_volatility_threshold short_btc_volatility_threshold
      volume_usdt_btc_prop_threshold : ℚ) : Bool :=
  decide (row.vol_open_low ≤ short_price_volatility_threshold) &&
    decide (short_btc_volatility_threshold ≤ row.btc_vol) &&
    decide (volume_usdt_btc_prop_threshold ≤ row.volume_usdt_btc_prop)

/-- `ListingBackrunStrategy._is_buy_signal` (`listing_backrun.py`, lines 92–111):
`vol_open_high >= long_price_volatility_threshold` AND
`btc_vol <= long_btc_volatility_threshold` AND
`volume_usdt_btc_prop >= volume_usdt_btc_prop_threshold`. -/
def listing_is_buy_signal (row : ListingRow)
    (long_price_volatility_threshold long_btc_volatility_threshold
      volume_usdt_btc_prop_threshold : ℚ) : Bool :=
  decide (long_price_volatility_threshold ≤ row.vol_open_high) &&
    decide (row.btc_vol ≤ long_btc_volatility_threshold) &&
    decide (volume_usdt_btc_prop_threshold ≤ row.volume_usdt_btc_prop)

/-- `ListingBackrunStrategy._check_signals` (`listing_backrun.py`, lines 113–131):
the SELL predicate is tested first; only when it is false is the BUY predicate
tested; otherwise NONE. -/
def listing_check_signals (row : ListingRow) (p : ListingBackrunParams) : OrderSide :=
  if listing_is_sell_signal row p.short_price_volatility_threshold
      p.short_btc_volatility_threshold p.volume_usdt_btc_prop_threshold then
    OrderSide.sell
  else if listing_is_buy_signal row p.long_price_volatility_threshold
      p.long_btc_volatility_threshold p.volume_usdt_btc_prop_threshold then
    OrderSide.buy
  else
    OrderSide.none

/-- `ListingBackrunStrategy._process_candidate_symbol` evaluates signals on
`df.iloc[0]` (`listing_backrun.py`, lines 168–186): on an empty frame the
Python row access `df.iloc[0]` raises `IndexError` before `_check_signals`
is reached. -/
def listing_process_candidate_signal (df : List ListingRow)
    (p : ListingBackrunParams) : Except PyError OrderSide :=
  match df with
  | [] => Except.error PyError.indexError
  | row :: _ => Except.ok (listing_check_signals row p)

/-- C9: whenever the SELL conditions and the BUY conditions hold simultaneously
on a row, `_check_signals` deterministically returns SELL, because the SELL
predicate is evaluated first. -/
theorem C9_sell_evaluated_first (row : ListingRow) (p : ListingBackrunParams)
    (hsell : listing_is_sell_signal row p.short_price_volatility_threshold
      p.short_btc_volatility_threshold p.volume_usdt_btc_prop_threshold = true)
    (hbuy : listing_is_buy_signal row p.long_price_volatility_threshold
      p.long_btc_volatility_threshold p.volume_usdt_btc_prop_threshold = true) :
    listing_check_signals row p = OrderSide.sell := by
  simp [listing_check_signals, hsell, hbuy]

/-- C9 witness: a concrete row satisfying both the SELL and the BUY conditions
(price dropped 5% open→low and jumped 5% open→high, BTC flat against zero
thresholds, volume proportion 60 ≥ 50) on which `_check_signals` yields SELL. -/
theorem C9_sell_evaluated_first_witness :
    (listing_is_sell_signal ⟨-5, 5, 0, 60⟩ 0 0 50 = true ∧
      listing_is_buy_signal ⟨-5, 5, 0, 60⟩ 0 0 50 = true) ∧
    listing_check_signals ⟨-5, 5, 0, 60⟩ ⟨0, 0, 0, 0, 50⟩ = OrderSide.sell :=
  ⟨⟨by decide, by decide⟩,
    C9_sell_evaluated_first ⟨-5, 5, 0, 60⟩ ⟨0, 0, 0, 0, 50⟩ (by decide) (by decide)⟩

/-! ## pandas access helpers

`iloc` with a negative index `-i` reads element `len - i` and raises
`IndexError` when `i > len`; the slice `iloc[-w:]` keeps the last `w` rows,
the whole frame when `w = 0` or `w ≥ len`.  A `NaN` cell (indicator columns
before their window is filled) is modelled as `Option.none`; any pandas
comparison against `NaN` is false. -/

/-- `df.iloc[-i]` for `i ≥ 1`: the `i`-th row from the end, `IndexError`
(modelled as `none`) when the frame has fewer than `i` rows. -/
def ilocNeg (xs : List α) (i : ℕ) : Option α :=
  if i ≤ xs.length then xs.get? (xs.length - i) else Option.none

/-- `df.iloc[-w:]`: the last `w` rows; the whole frame when `w = 0`
(Python `xs[-0:] = xs`) or when `w ≥ len`. -/
def lastWindow (xs : List α) (w : ℕ) : List α :=
  if w = 0 then xs else xs.drop (xs.length - w)

/-- Pandas `a <= c` where `a` may be `NaN`: false on `NaN`. -/
def nanLe (a : Option ℚ) (c : ℚ) : Bool :=
  match a with
  | Option.some x => decide (x ≤ c)
  | Option.none => false

/-- Pandas `a < b` where either side may be `NaN`: false on `NaN`. -/
def nanLt (a b : Option ℚ) : Bool :=
  match a, b with
  | Option.some x, Option.some y => decide (x < y)
  | _, _ => false

/-! ## strategies/mrat_zscore.py — signal evaluation -/

/-- One row of the mrat frame after `_create_indicators`: raw OHLC columns
plus the indicator columns read by `_is_buy_signal` (`mrat_zscore.py`,
lines 29–52).  Indicator columns may be `NaN` on early rows. -/
structure MratRow where
  open_ : ℚ
  high : ℚ
  low : ℚ
  close : ℚ
  filter_ma : Option ℚ
  slow_ma : Option ℚ
  z_score_mrat : Option ℚ
deriving DecidableEq, Repr

/-- `MratZscoreStrategy._is_buy_signal` (`mrat_zscore.py`, lines 54–85):
`under_z_score_threshold` tests whether any of the last
`z_score_lookback_window` rows has `z_score_mrat <= -z_score_threshold`;
`has_rebound` reads `df.iloc[-2]` and `df.iloc[-3]` — on a frame with fewer
than three rows this raises `IndexError`; `filter_ma_under_slow_ma` reads
`df.iloc[-1]`. -/
def mrat_is_buy_signal (df : List MratRow) (z_score_threshold : ℚ)
    (z_score_lookback_window : ℕ) : Except PyError Bool :=
  let under_z_score_threshold :=
    ((lastWindow df z_score_lookback_window).filter
      (fun r => nanLe r.z_score_mrat (-z_score_threshold))).length > 0
  match ilocNeg df 2, ilocNeg df 3 with
  | Option.some r2, Option.some r3 =>
    let has_rebound := decide (r3.open_ < r2.close) && decide (r3.high < r2.high)
    match ilocNeg df 1 with
    | Option.some r1 =>
      Except.ok (decide under_z_score_threshold && has_rebound &&
        nanLt r1.filter_ma r1.slow_ma)
    | Option.none => Except.error PyError.indexError
  | _, _ => Except.error PyError.indexError

/-- On any frame with fewer than 3 rows, `ilocNeg _ 3` is out of range. -/
theorem ilocNeg_three_eq_none {df : List MratRow} (h : df.length < 3) :
    ilocNeg df 3 = Option.none := by
  unfold ilocNeg
  rw [if_neg (by omega : ¬ 3 ≤ df.length)]

/-- C6 counterexample: on the empty window (and default-like parameters),
`_is_buy_signal` of the mrat variant raises `IndexError` instead of returning
a NONE signal, and `_process_candidate_symbol` of the listing-backrun variant
raises `IndexError` reading `df.iloc[0]` of an empty frame. -/
theorem C6_counterexample :
    mrat_is_buy_signal [] (5/2) 10 = Except.error PyError.indexError ∧
    listing_process_candidate_signal [] ⟨-20, 20, -3/10, 3/10, 1/2⟩ =
      Except.error PyError.indexError := by
  exact ⟨rfl, rfl⟩

/-- C6 amended: signal evaluation is not total on short windows.  For every
market-data window with fewer than three rows and all parameters, the mrat
variant's `_is_buy_signal` raises `IndexError` (it is the outer run loop that
later swallows the exception), and the listing-backrun variant's candidate
evaluation raises `IndexError` on an empty frame. -/
theorem C6_short_window_amended (df : List MratRow) (z_score_threshold : ℚ)
    (z_score_lookback_window : ℕ) (h : df.length < 3) :
    mrat_is_buy_signal df z_score_threshold z_score_lookback_window =
      Except.error PyError.indexError ∧
    (∀ p : ListingBackrunParams,
      listing_process_candidate_signal [] p = Except.error PyError.indexError) := by
  refine ⟨?_, fun p => rfl⟩
  have h3 : ilocNeg df 3 = Option.none := ilocNeg_three_eq_none h
  cases h2 : ilocNeg df 2 with
  | none => simp [mrat_is_buy_signal, h2, h3]
  | some r2 => simp [mrat_is_buy_signal, h2, h3]

/-- C6 witness: the amended statement applied to a concrete two-row window. -/
theorem C6_short_window_amended_witness :
    ([⟨1, 2, 1, 2, Option.none, Option.none, Option.none⟩,
        ⟨2, 3, 2, 3, Option.none, Option.none, Option.none⟩] :
      List MratRow).length < 3 ∧
    mrat_is_buy_signal
        [⟨1, 2, 1, 2, Option.none, Option.none, Option.none⟩,
          ⟨2, 3, 2, 3, Option.none, Option.none, Option.none⟩] (5/2) 10 =
      Except.error PyError.indexError :=
  ⟨by decide,
    (C6_short_window_amended
      [⟨1, 2, 1, 2, Option.none, Option.none, Option.none⟩,
        ⟨2, 3, 2, 3, Option.none, Option.none, Option.none⟩] (5/2) 10
      (by decide)).1⟩

/-! ## admission gates and per-iteration submission decisions -/

/-- `Strategy.position_opening_available` (`strategies/base.py`, lines 82–85):
`len(fetch_positions()) + len(fetch_open_orders()) < max_simultaneous_positions`.
The two exchange fetches are abstracted to their lengths. -/
def position_opening_available (open_positions open_orders
    max_simultaneous_positions : ℕ) : Bool :=
  decide (open_positions + open_orders < max_simultaneous_positions)

/-- `RsiDailyStrategy._should_open_position` (`rsi_daily.py`, lines 46–54):
no open position for the symbol, free balance `> 3`, and
`len(fetch_positions()) <= max_simultaneous_positions` — note it counts only
open positions (not open orders) and compares with `<=`, not `<`. -/
def rsi_should_open_position (symbol_positions : ℕ) (free_amount : ℚ)
    (total_positions max_simultaneous_positions : ℕ) : Bool :=
  decide (symbol_positions = 0) && decide ((3 : ℚ) < free_amount) &&
    decide (total_positions ≤ max_simultaneous_positions)

/-- Account-wide exchange state (what `fetch_positions()` /
`fetch_open_orders()` without a symbol filter would report).  The mrat
variant's gate receives it but — like the source, which never performs those
account-wide calls — does not read it. -/
structure AccountState where
  total_positions : ℕ
  total_orders : ℕ
deriving DecidableEq, Repr

/-- `MratZscoreStrategy._should_open_position` (`mrat_zscore.py`, lines
129–179): with an empty per-symbol position history it returns
`_is_buy_signal` directly (lines 149–151); with a non-empty history the very
next line indexes the first history entry (a dict) with `[0]`
(`last_position[0]["timestamp"]`, line 157), raising a `KeyError`.
`max_simultaneous_positions` is never consulted; the later per-symbol
positions/orders checks (lines 168–177) are unreachable because of that
error. -/
def mrat_should_open_position (acct : AccountState)
    (position_history : List ℕ) (buy_signal : Bool) : Except PyError Bool :=
  match position_history with
  | [] => Except.ok buy_signal
  | _ :: _ => Except.error PyError.keyError

/-- The order-relevant action of one iteration of a strategy run loop. -/
inductive RunAction where
  | submitOpenOrder
  | submitCloseOrder
  | noAction
deriving DecidableEq, Repr

/-- The signal dispatch of `MratZscoreStrategy.run` (`mrat_zscore.py`, lines
301–343): if `_should_open_position` then `_open_position_order` (an order
submission), elif `_should_close_position` then `_close_position_order`,
else no action. -/
def mrat_run_dispatch (should_open should_close : Bool) : RunAction :=
  if should_open then RunAction.submitOpenOrder
  else if should_close then RunAction.submitCloseOrder
  else RunAction.noAction

/-- One mrat run-loop iteration's submission decision, composed from the gate
and the dispatch. -/
def mrat_run_iteration_action (acct : AccountState) (position_history : List ℕ)
    (buy_signal should_close : Bool) : Except PyError RunAction :=
  match mrat_should_open_position acct position_history buy_signal with
  | Except.error e => Except.error e
  | Except.ok so => Except.ok (mrat_run_dispatch so should_close)

/-- `ListingBackrunStrategy.run` spawns `_process_candidate_symbol` for a new
symbol only when `position_opening_available` is true (`listing_backrun.py`,
lines 235–245). -/
def listing_scan_spawns_candidate (open_positions open_orders
    max_simultaneous_positions : ℕ) : Bool :=
  position_opening_available open_positions open_orders max_simultaneous_positions

/-- C3 counterexample: with `max_simultaneous_positions = 1`, one open position
on another symbol and no open orders (so `openPositions + openOrders ≥ max`),
an empty per-symbol history and a buy signal, the mrat variant's iteration
still submits an open order — its gate never consults the cap. -/
theorem C3_counterexample :
    (1 : ℕ) ≤ 1 + 0 ∧
    mrat_run_iteration_action ⟨1, 0⟩ [] true false =
      Except.ok RunAction.submitOpenOrder := by
  exact ⟨le_refl 1, rfl⟩

/-- C3 amended: the base admission gate `position_opening_available` returns
false whenever `openPositions + openOrders ≥ maxSimultaneousPositions`, and the
listing-backrun scanner spawns candidate processing only when that gate is true
at scan time; but the gate is not applied by every variant: the mrat-zscore
variant never consults `max_simultaneous_positions` and can submit an order
while `openPositions + openOrders ≥ max`, and the rsi-daily gate compares only
the open-position count, with `≤` instead of `<`. -/
theorem C3_admission_gate_amended (open_positions open_orders
    max_simultaneous_positions : ℕ)
    (h : max_simultaneous_positions ≤ open_positions + open_orders) :
    position_opening_available open_positions open_orders
        max_simultaneous_positions = false ∧
    listing_scan_spawns_candidate open_positions open_orders
        max_simultaneous_positions = false ∧
    (∀ acct : AccountState, ∀ buy_signal should_close : Bool,
      mrat_run_iteration_action acct [] buy_signal should_close =
        Except.ok (mrat_run_dispatch buy_signal should_close)) ∧
    rsi_should_open_position 0 4 max_simultaneous_positions
        max_simultaneous_positions = true := by
  refine ⟨?_, ?_, fun acct buy_signal should_close => rfl, ?_⟩
  · simp [position_opening_available]
    omega
  · simp [listing_scan_spawns_candidate, position_opening_available]
    omega
  · simp [rsi_should_open_position]
    norm_num

/-- C3 witness: the amended statement at one open position, no open orders,
cap 1. -/
theorem C3_admission_gate_amended_witness :
    (1 : ℕ) ≤ 1 + 0 ∧
    (position_opening_available 1 0 1 = false ∧
      listing_scan_spawns_candidate 1 0 1 = false ∧
      (∀ acct : AccountState, ∀ buy_signal should_close : Bool,
        mrat_run_iteration_action acct [] buy_signal should_close =
          Except.ok (mrat_run_dispatch buy_signal should_close)) ∧
      rsi_should_open_position 0 4 1 1 = true) :=
  ⟨le_refl 1, C3_admission_gate_amended 1 0 1 (le_refl 1)⟩

/-! ## outer run loops — exception handling (StrategySupervisor) -/

/-- Outcome of one run-loop iteration body: either it completes or some
statement in it raises. -/
inductive IterOutcome where
  | ok
  | raises
deriving DecidableEq, Repr

/-- `MratZscoreStrategy.run`'s `except` clause (`mrat_zscore.py`, lines
346–348) logs the error, sleeps 60 seconds and lets the `while True` loop
continue: the loop survives an iteration's exception. -/
def mrat_run_survives_iteration_exception : Bool := true

/-- The backoff the mrat loop sleeps after a caught iteration exception
(`mrat_zscore.py`, line 348). -/
def mrat_run_exception_backoff_seconds : ℕ := 60

/-- `RsiDailyStrategy.run`'s `except` clause (`rsi_daily.py`, lines 259–261)
logs the error, sleeps 60 seconds and continues: the loop survives an
iteration's exception. -/
def rsi_run_survives_iteration_exception : Bool := true

/-- The backoff the rsi loop sleeps after a caught iteration exception
(`rsi_daily.py`, line 261). -/
def rsi_run_exception_backoff_seconds : ℕ := 60

/-- `ListingBackrunStrategy.run`'s `except` clause (`listing_backrun.py`,
lines 247–249) logs the error and then executes `raise Exception`: the
exception propagates out of `run` and the loop exits. -/
def listing_run_survives_iteration_exception : Bool := false

/-- Whether a `while True` run loop is still running after `n` iterations of
the given outcome trace: an iteration that raises terminates the loop unless
the variant's `except` clause swallows the exception. -/
def loop_running_after (survives_exception : Bool) (trace : ℕ → IterOutcome) :
    ℕ → Bool
  | 0 => true
  | n + 1 =>
    loop_running_after survives_exception trace n &&
      (match trace n with
       | IterOutcome.ok => true
       | IterOutcome.raises => survives_exception)

/-- C4 counterexample: the listing-backrun run loop exits on the very first
iteration that raises — the claim fails for that strategy variant. -/
theorem C4_counterexample :
    loop_running_after listing_run_survives_iteration_exception
      (fun _ => IterOutcome.raises) 1 = false := by
  exact rfl

/-- C4 amended: the mrat-zscore and rsi-daily run loops catch any iteration
exception, sleep a 60-second backoff and resume, so they never exit on a
single iteration's failure — for every outcome trace they are still running
after every number of iterations; the listing-backrun run loop instead logs
the exception and re-raises (`raise Exception`), exiting the loop. -/
theorem C4_run_loop_amended (trace : ℕ → IterOutcome) (n : ℕ) :
    loop_running_after mrat_run_survives_iteration_exception trace n = true ∧
    loop_running_after rsi_run_survives_iteration_exception trace n = true ∧
    mrat_run_exception_backoff_seconds = 60 ∧
    rsi_run_exception_backoff_seconds = 60 ∧
    listing_run_survives_iteration_exception = false := by
  refine ⟨?_, ?_, rfl, rfl, rfl⟩ <;>
  · induction n with
    | zero => rfl
    | succ k ih =>
      simp only [loop_running_after, ih, Bool.true_and]
      cases trace k <;> rfl

/-- C4 witness: the amended statement on a trace that raises at every
iteration, after three iterations. -/
theorem C4_run_loop_amended_witness :
    loop_running_after mrat_run_survives_iteration_exception
        (fun _ => IterOutcome.raises) 3 = true ∧
    loop_running_after rsi_run_survives_iteration_exception
        (fun _ => IterOutcome.raises) 3 = true ∧
    mrat_run_exception_backoff_seconds = 60 ∧
    rsi_run_exception_backoff_seconds = 60 ∧
    listing_run_survives_iteration_exception = false :=
  C4_run_loop_amended (fun _ => IterOutcome.raises) 3

/-! ## strategies/base.py — position lifecycle monitors

`monitor_position_opening` polls `fetch_position` once per second; the trace
`fetch_position : ℕ → Bool` records whether the exchange reports a position
at the k-th poll (k seconds after submission).  `monitor_position_closing`
polls `fetch_positions_history` every 60 seconds; its trace
`ℕ → Option PositionHistoryInfo` yields the first history entry, or `none`
when the history is empty, at the k-th poll.  Each loop is run with explicit
fuel (a number of loop iterations); the Python loops return from inside the
loop body, which the step functions mirror. -/

/-- The `info` dict of a `fetch_positions_history` entry, as read by
`monitor_position_closing` (`base.py`, lines 120–141). -/
structure PositionHistoryInfo where
  netProfit : Option ℚ
  openAvgPrice : ℚ
  closeAvgPrice : ℚ
  holdSide : String
  ctime : ℕ
  utime : ℕ
deriving DecidableEq, Repr

/-- The `Position` record of `core/models.py` (lines 28–39).  The `uuid4` id
is modelled by a fresh natural-number counter; the date fields keep the raw
millisecond timestamps that `get_date_from_ts_in_ms` formats injectively. -/
structure Position where
  id : ℕ
  symbol : String
  open_price : ℚ
  close_price : ℚ
  hold_side : String
  open_date : ℕ
  close_date : ℕ
  net_profit : ℚ
  strategy_params : String
deriving DecidableEq, Repr

/-- The `Position(...)` construction inside `monitor_position_closing`
(`base.py`, lines 125–142). -/
def mk_position (ident : ℕ) (symbol : String) (info : PositionHistoryInfo)
    (net_profit : ℚ) (strategy_params : String) : Position :=
  ⟨ident, symbol, info.openAvgPrice, info.closeAvgPrice, info.holdSide,
    info.ctime, info.utime, net_profit, strategy_params⟩

/-- Notifications sent by the lifecycle monitors (`base.py`, lines 94, 100,
147). -/
inductive LifecycleNotification where
  | positionOpened
  | openTimeout
  | positionClosed
deriving DecidableEq, Repr

/-- Terminal outcome of `monitor_position_opening`: position observed at poll
`k`, or the timeout branch taken at poll `k`. -/
inductive OpenOutcome where
  | opened (k : ℕ)
  | timedOut (k : ℕ)
deriving DecidableEq, Repr

/-- The polling loop of `Strategy.monitor_position_opening` (`base.py`, lines
87–105), starting at poll `k` with the given fuel: if `fetch_position`
reports a position, return success; else if the elapsed time `k` exceeds
`order_timeout`, return the timeout outcome; else sleep one second and
continue.  The fuel only needs to cover the loop's bounded run
(`order_timeout + 2` iterations). -/
def monitor_position_opening_aux (fetch_position : ℕ → Bool)
    (order_timeout k : ℕ) : ℕ → OpenOutcome
  | 0 => OpenOutcome.timedOut k
  | fuel + 1 =>
    if fetch_position k then OpenOutcome.opened k
    else if order_timeout < k then OpenOutcome.timedOut k
    else monitor_position_opening_aux fetch_position order_timeout (k + 1) fuel

/-- `Strategy.monitor_position_opening` (`base.py`, lines 87–105): the polling
loop from poll 0, with fuel covering its bounded run. -/
def monitor_position_opening (fetch_position : ℕ → Bool)
    (order_timeout : ℕ) : OpenOutcome :=
  monitor_position_opening_aux fetch_position order_timeout 0 (order_timeout + 2)

/-- The messages `monitor_position_opening` sends: exactly one success message
on the `opened` branch (line 94) and exactly one timeout message on the
`timedOut` branch (line 100). -/
def opening_notifications : OpenOutcome → List LifecycleNotification
  | OpenOutcome.opened _ => [LifecycleNotification.positionOpened]
  | OpenOutcome.timedOut _ => [LifecycleNotification.openTimeout]

/-- Result of running `monitor_position_closing` for some number of polls:
the database contents, the next fresh id, and whether the function has
returned (it returns only after inserting a `Position`). -/
structure ClosingResult where
  db : List Position
  next_id : ℕ
  returned : Bool
deriving DecidableEq, Repr

/-- The polling loop of `Strategy.monitor_position_closing` (`base.py`, lines
107–166), starting at poll `k` over history trace `h`, with database `db`
and fresh-id counter `ident`: when the history is non-empty and its first
entry has a non-null `netProfit`, build a `Position`, insert it
(`DynamoDB.insert_position` appends — every insert carries a fresh `uuid4`
id) and return; otherwise sleep 60 seconds and poll again.  The loop has no
timeout, so it is run with explicit fuel. -/
def monitor_position_closing_aux (h : ℕ → Option PositionHistoryInfo)
    (symbol strategy_params : String) (k : ℕ) (db : List Position)
    (ident : ℕ) : ℕ → ClosingResult
  | 0 => ⟨db, ident, false⟩
  | fuel + 1 =>
    match h k with
    | Option.some info =>
      match info.netProfit with
      | Option.some np =>
        ⟨db ++ [mk_position ident symbol info np strategy_params],
          ident + 1, true⟩
      | Option.none =>
        monitor_position_closing_aux h symbol strategy_params (k + 1) db ident fuel
    | Option.none =>
      monitor_position_closing_aux h symbol strategy_params (k + 1) db ident fuel

/-- One call of `Strategy.monitor_position_closing` (`base.py`, lines
107–166), observed for `fuel` polls from poll 0. -/
def monitor_position_closing (h : ℕ → Option PositionHistoryInfo)
    (symbol strategy_params : String) (db : List Position) (ident fuel : ℕ) :
    ClosingResult :=
  monitor_position_closing_aux h symbol strategy_params 0 db ident fuel

/-- `Strategy.monitor_position` (`base.py`, lines 168–170): sequential
composition — `monitor_position_closing` starts unconditionally after
`monitor_position_opening` returns, also when the opening monitor timed
out. -/
def monitor_position (fetch_position : ℕ → Bool) (order_timeout : ℕ)
    (h : ℕ → Option PositionHistoryInfo) (symbol strategy_params : String)
    (db : List Position) (ident fuel : ℕ) : OpenOutcome × ClosingResult :=
  (monitor_position_opening fetch_position order_timeout,
    monitor_position_closing h symbol strategy_params db ident fuel)

/-- `monitor_position_closing` ever returns, for some number of polls. -/
def closing_ever_returns (h : ℕ → Option PositionHistoryInfo) : Prop :=
  ∃ fuel, (monitor_position_closing h "S/USDT:USDT" "params" [] 0 fuel).returned = true

/-- `fetch_position` empty at every poll. -/
def no_fill_trace : ℕ → Bool := fun _ => false

/-- `fetch_positions_history` empty at every poll. -/
def empty_history_trace : ℕ → Option PositionHistoryInfo := fun _ => Option.none

/-- With an all-empty `fetch_position` trace, the opening monitor takes the
timeout branch at poll `order_timeout + 1`. -/
theorem monitor_opening_aux_no_fill (order_timeout : ℕ) :
    ∀ fuel k, k ≤ order_timeout + 1 → order_timeout + 2 ≤ k + fuel →
      monitor_position_opening_aux no_fill_trace order_timeout k fuel =
        OpenOutcome.timedOut (order_timeout + 1) := by
  intro fuel
  induction fuel with
  | zero => intro k hk hfuel; omega
  | succ m ih =>
    intro k hk hfuel
    show (if no_fill_trace k then OpenOutcome.opened k
      else if order_timeout < k then OpenOutcome.timedOut k
      else monitor_position_opening_aux no_fill_trace order_timeout (k + 1) m) = _
    rw [if_neg (by simp [no_fill_trace])]
    by_cases hlt : order_timeout < k
    · rw [if_pos hlt]
      have : k = order_timeout + 1 := by omega
      rw [this]
    · rw [if_neg hlt]
      exact ih (k + 1) (by omega) (by omega)

/-- With an all-empty history trace, the closing monitor never returns and
never touches the database, whatever the fuel. -/
theorem monitor_closing_aux_empty_history (symbol strategy_params : String) :
    ∀ fuel k db ident,
      monitor_position_closing_aux empty_history_trace symbol strategy_params
        k db ident fuel = ⟨db, ident, false⟩ := by
  intro fuel
  induction fuel with
  | zero => intro k db ident; rfl
  | succ m ih => intro k db ident; exact ih (k + 1) db ident

/-- C1 counterexample: when `fetch_position` stays empty for the whole 600-s
window, the opening monitor does return the timeout outcome with exactly one
timeout notification — but the lifecycle task does not terminate: after 1000
further closing polls (over the empty history) `monitor_position` is still
inside `monitor_position_closing`, and that monitor never returns at all, so
monitoring does not stop. -/
theorem C1_counterexample :
    monitor_position no_fill_trace 600 empty_history_trace "S/USDT:USDT"
        "params" [] 0 1000 =
      (OpenOutcome.timedOut 601, ⟨[], 0, false⟩) ∧
    ¬ closing_ever_returns empty_history_trace := by
  constructor
  · unfold monitor_position monitor_position_opening monitor_position_closing
    rw [monitor_opening_aux_no_fill 600 602 0 (by omega) (by omega),
      monitor_closing_aux_empty_history "S/USDT:USDT" "params" 1000 0 [] 0]
  · rintro ⟨fuel, hfuel⟩
    rw [monitor_position_closing,
      monitor_closing_aux_empty_history "S/USDT:USDT" "params" fuel 0 [] 0] at hfuel
    exact Bool.false_ne_true hfuel

/-- C1 amended: if an order is submitted and `fetch_position` returns empty
for the entire order-timeout window, the opening monitor returns the timeout
outcome at poll `timeout + 1` and sends exactly one timeout notification, and
as long as the position history stays empty no `Position` record is ever
persisted; however the lifecycle task does not terminate: `monitor_position`
unconditionally proceeds to `monitor_position_closing`, which keeps polling —
after any number of polls it has not returned and the database is
unchanged. -/
theorem C1_timeout_amended (fetch_position : ℕ → Bool)
    (h : ℕ → Option PositionHistoryInfo) (order_timeout : ℕ)
    (hf : ∀ j, fetch_position j = false) (hh : ∀ j, h j = Option.none) :
    monitor_position_opening fetch_position order_timeout =
      OpenOutcome.timedOut (order_timeout + 1) ∧
    opening_notifications (monitor_position_opening fetch_position order_timeout) =
      [LifecycleNotification.openTimeout] ∧
    (∀ fuel db ident symbol strategy_params,
      monitor_position_closing h symbol strategy_params db ident fuel =
        ⟨db, ident, false⟩) := by
  have hfe : fetch_position = no_fill_trace := funext hf
  have hhe : h = empty_history_trace := funext hh
  subst hfe hhe
  refine ⟨?_, ?_, ?_⟩
  · exact monitor_opening_aux_no_fill order_timeout (order_timeout + 2) 0
      (by omega) (by omega)
  · rw [monitor_position_opening,
      monitor_opening_aux_no_fill order_timeout (order_timeout + 2) 0
        (by omega) (by omega)]
    rfl
  · intro fuel db ident symbol strategy_params
    exact monitor_closing_aux_empty_history symbol strategy_params fuel 0 db ident

/-- C1 witness: the amended statement at the all-empty traces and the default
600-second timeout. -/
theorem C1_timeout_amended_witness :
    ((∀ j, no_fill_trace j = false) ∧ (∀ j, empty_history_trace j = Option.none)) ∧
    (monitor_position_opening no_fill_trace 600 = OpenOutcome.timedOut 601 ∧
      opening_notifications (monitor_position_opening no_fill_trace 600) =
        [LifecycleNotification.openTimeout] ∧
      (∀ fuel db ident symbol strategy_params,
        monitor_position_closing empty_history_trace symbol strategy_params
          db ident fuel = ⟨db, ident, false⟩)) :=
  ⟨⟨fun _ => rfl, fun _ => rfl⟩,
    C1_timeout_amended no_fill_trace empty_history_trace 600
      (fun _ => rfl) (fun _ => rfl)⟩

/-! ## C2 — closing-monitor idempotence -/

/-- A history entry for a position that has already closed with a realized
net profit of 5 USDT. -/
def closed_entry : PositionHistoryInfo :=
  ⟨Option.some 5, 100, 110, "long", 1700000000000, 1700000360000⟩

/-- `fetch_positions_history` reporting that closed position at every poll —
what a second closing monitor for the same position keeps observing. -/
def closed_history_trace : ℕ → Option PositionHistoryInfo :=
  fun _ => Option.some closed_entry

/-- A first call of `monitor_position_closing` observing the closed
position: it inserts one `Position` and returns. -/
def closing_first_call : ClosingResult :=
  monitor_position_closing closed_history_trace "ETH/USDT:USDT" "params" [] 0 1

/-- A second call of `monitor_position_closing` for the same, already
persisted position, starting from the database the first call produced. -/
def closing_second_call : ClosingResult :=
  monitor_position_closing closed_history_trace "ETH/USDT:USDT" "params"
    closing_first_call.db closing_first_call.next_id 1

/-- C2 counterexample: the first closing-monitor call persists one `Position`;
calling `monitor_position_closing` a second time for the same already-closed
and persisted position inserts a second record (with a fresh id), so the
database holds two records for a single close event. -/
theorem C2_counterexample :
    closing_first_call.returned = true ∧
    closing_first_call.db.length = 1 ∧
    closing_second_call.returned = true ∧
    closing_second_call.db.length = 2 := by
  exact ⟨rfl, rfl, rfl, rfl⟩

/-- One call of the closing loop inserts at most one record, and leaves the
database untouched as long as it has not returned. -/
theorem monitor_closing_aux_single_insert (h : ℕ → Option PositionHistoryInfo)
    (symbol strategy_params : String) :
    ∀ fuel k db ident,
      (monitor_position_closing_aux h symbol strategy_params k db ident
          fuel).db.length ≤ db.length + 1 ∧
      ((monitor_position_closing_aux h symbol strategy_params k db ident
          fuel).returned = false →
        (monitor_position_closing_aux h symbol strategy_params k db ident
          fuel).db = db) := by
  intro fuel
  induction fuel with
  | zero =>
    intro k db ident
    exact ⟨Nat.le_succ _, fun _ => rfl⟩
  | succ m ih =>
    intro k db ident
    simp only [monitor_position_closing_aux]
    cases h k with
    | none => exact ih (k + 1) db ident
    | some info =>
      cases hnp : info.netProfit with
      | none => simpa only [hnp] using ih (k + 1) db ident
      | some np => refine ⟨?_, ?_⟩ <;> simp [hnp]

/-- C2 amended: a single call of `monitor_position_closing` inserts at most
one `Position` record — it returns immediately after its first insert, and if
it has not returned the database is unchanged; but the monitor has no
cross-call deduplication, so a second call observing the same closed position
performs a second insert. -/
theorem C2_single_insert_amended (h : ℕ → Option PositionHistoryInfo)
    (symbol strategy_params : String) (db : List Position) (ident fuel : ℕ) :
    (monitor_position_closing h symbol strategy_params db ident fuel).db.length
        ≤ db.length + 1 ∧
    ((monitor_position_closing h symbol strategy_params db ident fuel).returned
        = false →
      (monitor_position_closing h symbol strategy_params db ident fuel).db = db) ∧
    closing_second_call.db.length = closing_first_call.db.length + 1 := by
  refine ⟨?_, ?_, rfl⟩
  · exact (monitor_closing_aux_single_insert h symbol strategy_params fuel 0
      db ident).1
  · exact (monitor_closing_aux_single_insert h symbol strategy_params fuel 0
      db ident).2

/-- C2 witness: the amended statement at the closed-position history trace,
an empty database and one poll of fuel. -/
theorem C2_single_insert_amended_witness :
    (monitor_position_closing closed_history_trace "ETH/USDT:USDT" "params"
        [] 0 1).db.length ≤ List.length ([] : List Position) + 1 ∧
    ((monitor_position_closing closed_history_trace "ETH/USDT:USDT" "params"
        [] 0 1).returned = false →
      (monitor_position_closing closed_history_trace "ETH/USDT:USDT" "params"
        [] 0 1).db = []) ∧
    closing_second_call.db.length = closing_first_call.db.length + 1 :=
  C2_single_insert_amended closed_history_trace "ETH/USDT:USDT" "params" [] 0 1

/-! ## strategies/mrat_zscore.py — position sizing -/

/-- `MratZscoreStrategy._get_order_creation_amount` (`mrat_zscore.py`, lines
120–127): `free_amount * equity_trade_pct / 100`, with the surrounding
`try`/`except` returning `0.0` when the balance fetch fails (`Option.none`). -/
def mrat_get_order_creation_amount (fetch_balance_free : Option ℚ)
    (equity_trade_pct : ℚ) : ℚ :=
  match fetch_balance_free with
  | Option.some free_amount => free_amount * equity_trade_pct / 100
  | Option.none => 0

/-- The `amount = size / last_price` computation of
`MratZscoreStrategy._open_position_order` (`mrat_zscore.py`, lines 217–228):
Python float division raises `ZeroDivisionError` when `last_price == 0` and
returns the quotient otherwise — there is no validation of the price's
sign. -/
def mrat_open_position_amount (last_price size : ℚ) : Except PyError ℚ :=
  if last_price = 0 then Except.error PyError.zeroDivisionError
  else Except.ok (size / last_price)

/-- C7 counterexample: at `last_price = -1` (a non-positive price), with a
free equity of 100 and `equity_trade_pct = 10`, the sizing path returns the
amount `-10` instead of failing — no `InvalidInput` (or any other) error is
 raised for a negative price. -/
theorem C7_counterexample :
    mrat_open_position_amount (-1) (mrat_get_order_creation_amount
      (Option.some 100) 10) = Except.ok (-10) := by
  unfold mrat_open_position_amount mrat_get_order_creation_amount
  norm_num

/-- C7 amended: position sizing computes
`amount = freeEquity * equityTradePct / 100 / price` with no validation of the
price: for every non-zero price (negative prices included) it returns that
amount, and at `price = 0` it raises `ZeroDivisionError`, not an
`InvalidInput` error. -/
theorem C7_position_size_amended (free_equity equity_trade_pct price : ℚ)
    (hp : price ≠ 0) :
    mrat_open_position_amount price
        (mrat_get_order_creation_amount (Option.some free_equity)
          equity_trade_pct) =
      Except.ok (free_equity * equity_trade_pct / 100 / price) ∧
    mrat_open_position_amount 0
        (mrat_get_order_creation_amount (Option.some free_equity)
          equity_trade_pct) =
      Except.error PyError.zeroDivisionError := by
  constructor
  · unfold mrat_open_position_amount mrat_get_order_creation_amount
    rw [if_neg hp]
  · unfold mrat_open_position_amount
    rw [if_pos rfl]

/-- C7 witness: the amended statement at `freeEquity = 100`,
`equityTradePct = 10`, `price = 2`: the returned amount is 5. -/
theorem C7_position_size_amended_witness :
    (2 : ℚ) ≠ 0 ∧
    (mrat_open_position_amount 2
        (mrat_get_order_creation_amount (Option.some 100) 10) =
      Except.ok ((100 : ℚ) * 10 / 100 / 2) ∧
    mrat_open_position_amount 0
        (mrat_get_order_creation_amount (Option.some 100) 10) =
      Except.error PyError.zeroDivisionError) :=
  ⟨by norm_num, C7_position_size_amended 100 10 2 (by norm_num)⟩

/-! ## strategies/rsi_daily.py — candidate selection under a position budget -/

/-- A signal row of the daily-RSI variant: the symbol and its absolute RSI
delta `abs_diff_rsi` (`rsi_daily.py`, lines 31–35). -/
structure RsiCandidate where
  symbol : String
  abs_diff_rsi : ℚ
deriving DecidableEq, Repr

/-- Stable insertion into a list sorted by `abs_diff_rsi` descending. -/
def insert_desc_abs_diff_rsi (r : RsiCandidate) :
    List RsiCandidate → List RsiCandidate
  | [] => [r]
  | x :: xs =>
    if x.abs_diff_rsi ≤ r.abs_diff_rsi then r :: x :: xs
    else x :: insert_desc_abs_diff_rsi r xs

/-- `sort_values("abs_diff_rsi", ascending=False)`: stable sort by the RSI
delta, descending. -/
def sort_desc_abs_diff_rsi : List RsiCandidate → List RsiCandidate
  | [] => []
  | x :: xs => insert_desc_abs_diff_rsi x (sort_desc_abs_diff_rsi xs)

/-- The candidate selection of `RsiDailyStrategy.run` (`rsi_daily.py`, lines
248–250): `df_signals.iloc[:remaining].sort_values("abs_diff_rsi",
ascending=False)` — the frame is truncated to the first `remaining` rows in
frame order FIRST, and only those are then sorted by delta descending. -/
def rsi_select_code (signals : List RsiCandidate) (remaining : ℕ) :
    List RsiCandidate :=
  sort_desc_abs_diff_rsi (signals.take remaining)

/-- Modelled from the spec: "ranking multiple simultaneous candidates by the
magnitude of the RSI jump (descending) to prioritize execution order under a
limited position budget" — sort all candidates by delta descending, then keep
the top `remaining`. -/
def rsi_select_ranked (signals : List RsiCandidate) (remaining : ℕ) :
    List RsiCandidate :=
  (sort_desc_abs_diff_rsi signals).take remaining

/-- C5: on candidates with RSI deltas 1.0, 5.0, 2.5 (in frame order) and 2
open slots, the code's truncate-then-sort selection processes the deltas-5.0
and 1.0 candidates (5.0 first) — the delta-2.5 candidate is cut off before
the sort — whereas the claimed ranking (sort-then-truncate, modelled from the
spec) would process 5.0 then 2.5. -/
theorem C5_truncate_before_sort :
    rsi_select_code [⟨"A/USDT:USDT", 1⟩, ⟨"B/USDT:USDT", 5⟩,
        ⟨"C/USDT:USDT", 5/2⟩] 2 =
      [⟨"B/USDT:USDT", 5⟩, ⟨"A/USDT:USDT", 1⟩] ∧
    rsi_select_ranked [⟨"A/USDT:USDT", 1⟩, ⟨"B/USDT:USDT", 5⟩,
        ⟨"C/USDT:USDT", 5/2⟩] 2 =
      [⟨"B/USDT:USDT", 5⟩, ⟨"C/USDT:USDT", 5/2⟩] := by
  constructor <;>
    simp [rsi_select_code, rsi_select_ranked, sort_desc_abs_diff_rsi,
      insert_desc_abs_diff_rsi] <;> norm_num

/-! ## strategies/rsi_daily.py — attribute resolution in the run loop

The methods defined on `Strategy` (`base.py`, lines 30–177) and on
`RsiDailyStrategy` (`rsi_daily.py`, lines 22–261); pydantic `BaseModel` and
`abc` contribute no attribute of either disputed name.  A call of an
undefined attribute raises `AttributeError` at the call site, before any
later statement runs. -/

/-- The attributes `Strategy` defines (`base.py`). -/
def strategy_base_methods : List String :=
  ["logger", "position_opening_available", "monitor_position_opening",
    "monitor_position_closing", "monitor_position", "run"]

/-- The attributes `RsiDailyStrategy` adds (`rsi_daily.py`). -/
def rsi_daily_methods : List String :=
  strategy_base_methods ++
    ["_create_indicators", "_create_signals", "_should_open_position",
      "_open_position_order", "_close_position_order", "_process_signal",
      "_monitor_running_position", "_close_position_max_open_time",
      "_close_position_intermediate_pnl_percentage", "run"]

/-- A statement of an embedded Python block, at the granularity C10 needs:
a method call on `self`, an order submission (`create_order` reached), or any
other statement. -/
inductive PyStep where
  | callSelf (name : String)
  | submitOrder
  | pureStep
deriving DecidableEq, Repr

/-- Result of executing a straight-line block: how many orders were submitted
before the block finished or an exception aborted it. -/
structure BlockResult where
  orders_submitted : ℕ
  error : Option PyError
deriving DecidableEq, Repr

/-- Execute a block in order: a `callSelf` of a name not defined on the class
raises `AttributeError` and aborts the rest of the block. -/
def exec_block (methods : List String) : List PyStep → BlockResult
  | [] => ⟨0, Option.none⟩
  | PyStep.pureStep :: rest => exec_block methods rest
  | PyStep.submitOrder :: rest =>
    let r := exec_block methods rest
    ⟨r.orders_submitted + 1, r.error⟩
  | PyStep.callSelf name :: rest =>
    if name ∈ methods then exec_block methods rest
    else ⟨0, Option.some PyError.attributeError⟩

/-- The body of one `RsiDailyStrategy.run` iteration (`rsi_daily.py`, lines
230–257), in statement order: fetch OHLCV, `_create_indicators`, the groupby,
`_create_signals`, `self.get_remaining_position_number_to_open()` (line 246),
the slice/sort, then — inside `_process_signal` for a processed row —
`_should_open_position`, `self.get_order_creation_amount(...)` (line 122),
`_open_position_order` and the order submission it performs. -/
def rsi_run_iteration_body : List PyStep :=
  [PyStep.pureStep,
    PyStep.callSelf "_create_indicators",
    PyStep.pureStep,
    PyStep.callSelf "_create_signals",
    PyStep.callSelf "get_remaining_position_number_to_open",
    PyStep.pureStep,
    PyStep.callSelf "_process_signal",
    PyStep.callSelf "_should_open_position",
    PyStep.callSelf "get_order_creation_amount",
    PyStep.callSelf "_open_position_order",
    PyStep.submitOrder]

/-- The opening path of `RsiDailyStrategy._process_signal` alone
(`rsi_daily.py`, lines 118–132): even reached directly, it calls
`self.get_order_creation_amount` before `_open_position_order` can submit. -/
def rsi_process_signal_body : List PyStep :=
  [PyStep.callSelf "_should_open_position",
    PyStep.callSelf "get_order_creation_amount",
    PyStep.callSelf "_open_position_order",
    PyStep.submitOrder]

/-- Orders submitted by `n` iterations of the rsi run loop: each iteration
executes the same body, and the loop's `except` clause (lines 259–261)
swallows the iteration's exception and continues. -/
def rsi_loop_orders_after : ℕ → ℕ
  | 0 => 0
  | n + 1 =>
    rsi_loop_orders_after n +
      (exec_block rsi_daily_methods rsi_run_iteration_body).orders_submitted

/-- C10: neither `get_remaining_position_number_to_open` nor
`get_order_creation_amount` is defined on `RsiDailyStrategy` or on its base
class; the run-loop iteration aborts with `AttributeError` (at line 246)
before submitting any order, the `_process_signal` path alone aborts with
`AttributeError` (at line 122) before submitting any order, the loop's
handler swallows the exception (so the loop survives), and after any number
of iterations the variant has submitted zero orders. -/
theorem C10_rsi_never_submits :
    "get_remaining_position_number_to_open" ∉ rsi_daily_methods ∧
    "get_order_creation_amount" ∉ rsi_daily_methods ∧
    exec_block rsi_daily_methods rsi_run_iteration_body =
      ⟨0, Option.some PyError.attributeError⟩ ∧
    exec_block rsi_daily_methods rsi_process_signal_body =
      ⟨0, Option.some PyError.attributeError⟩ ∧
    rsi_run_survives_iteration_exception = true ∧
    (∀ n, rsi_loop_orders_after n = 0) := by
  refine ⟨by decide, by decide, by decide, by decide, rfl, ?_⟩
  intro n
  induction n with
  | zero => rfl
  | succ k ih =>
    show rsi_loop_orders_after k +
      (exec_block rsi_daily_methods rsi_run_iteration_body).orders_submitted = 0
    rw [ih]
    decide

end Otomai
